import Mathlib

/-!
# Verification of the X07 extension-backend ABI headers and shims

A shallow embedding of the ABI-bearing parts of the x07 repository:

* the C struct layouts declared in `x07_abi_v1.h` / `x07_abi_v2.h`
  (modelled via the standard C layout algorithm, parameterised over the
  native pointer size/alignment of the compilation environment);
* the trap-code enumerations of `x07_math_abi_v1.h` and `x07_time_abi_v1.h`;
* the buffer-slot tables and entrypoints of
  `packages/ext/x07-ext-openssl-c/0.1.9/ffi/openssl_shim.c` and
  `packages/ext/x07-ext-zlib-c/0.1.2/ffi/zlib_shim.c`;
* host-side behaviour of the streaming transducer emit channel and of the
  math backend, whose implementations are not part of the tree; those
  definitions are modelled from the spec / header documentation and say so
  in their doc comments.

Conventions of the embedding: machine integers are `Nat` with explicit
`% 2 ^ w` where the C type forces a wraparound or truncation; a C
`uint8_t` read is rendered as `% 256`; the C operators `x >> k` and
`x & (2^k - 1)` on unsigned values are rendered as `x / 2 ^ k` and
`x % 2 ^ k`, which agree with them on `Nat`; byte arrays are `List Nat`;
`malloc` is assumed to succeed (Lean has no allocation failure), and the
global slot arrays `g_bufs` / `g_lens` become explicit state records.
-/

namespace X07

/-! ## C layout algorithm (for `x07_abi_v1.h` / `x07_abi_v2.h`)

The headers only declare `typedef struct`s; their sizes and alignments are
determined by the standard C layout rules, which we compute here for an
environment given by the native pointer size and alignment.  The debug
fields guarded by `#ifdef X07_DEBUG_BORROW` are absent in the non-debug
build modelled here. -/

/-- A compilation environment: native pointer size and alignment in bytes. -/
structure CEnv where
  ptrSize : Nat
  ptrAlign : Nat
deriving DecidableEq

/-- Size and alignment of a C type, in bytes. -/
structure CTy where
  size : Nat
  align : Nat
deriving DecidableEq

/-- `uint32_t`: 4 bytes, 4-byte alignment. -/
def u32_t : CTy := ⟨4, 4⟩

/-- A data or function pointer in environment `env`. -/
def ptr_t (env : CEnv) : CTy := ⟨env.ptrSize, env.ptrAlign⟩

/-- Round `n` up to the next multiple of `a` (no-op for `a = 0`). -/
def alignUp (n a : Nat) : Nat := if a = 0 then n else (n + a - 1) / a * a

/-- Alignment of a C aggregate: the maximum member alignment (at least 1). -/
def aggrAlign (fs : List CTy) : Nat := fs.foldl (fun m f => max m f.align) 1

/-- Layout of a C `struct` with the given member list: members are placed in
order at offsets rounded up to their alignment, and the total size is rounded
up to the struct alignment. -/
def structLayout (fs : List CTy) : CTy :=
  let al := aggrAlign fs
  let off := fs.foldl (fun o f => alignUp o f.align + f.size) 0
  ⟨alignUp off al, al⟩

/-- Layout of a C `union` with the given member list. -/
def unionLayout (fs : List CTy) : CTy :=
  let al := aggrAlign fs
  let sz := fs.foldl (fun m f => max m f.size) 0
  ⟨alignUp sz al, al⟩

/-! ### ABI v1 container layouts (`x07_abi_v1.h`, non-debug build) -/

/-- `ev_bytes_v1_t`: `{ uint8_t* ptr; uint32_t len; }`. -/
def ev_bytes_v1_fields (env : CEnv) : List CTy := [ptr_t env, u32_t]

def ev_bytes_v1_t (env : CEnv) : CTy := structLayout (ev_bytes_v1_fields env)

/-- `ev_bytes_view_v1_t`: `{ uint8_t* ptr; uint32_t len; }` (debug fields
compiled out). -/
def ev_bytes_view_v1_fields (env : CEnv) : List CTy := [ptr_t env, u32_t]

def ev_bytes_view_v1_t (env : CEnv) : CTy := structLayout (ev_bytes_view_v1_fields env)

/-- `ev_vec_u8_v1_t`: `{ uint8_t* data; uint32_t len; uint32_t cap; }`. -/
def ev_vec_u8_v1_fields (env : CEnv) : List CTy := [ptr_t env, u32_t, u32_t]

def ev_vec_u8_v1_t (env : CEnv) : CTy := structLayout (ev_vec_u8_v1_fields env)

/-- `ev_option_i32_v1_t`: `{ uint32_t tag; uint32_t payload; }`. -/
def ev_option_i32_v1_fields (_env : CEnv) : List CTy := [u32_t, u32_t]

def ev_option_i32_v1_t (env : CEnv) : CTy := structLayout (ev_option_i32_v1_fields env)

/-- `ev_option_bytes_v1_t`: `{ uint32_t tag; ev_bytes_v1_t payload; }`. -/
def ev_option_bytes_v1_fields (env : CEnv) : List CTy := [u32_t, ev_bytes_v1_t env]

def ev_option_bytes_v1_t (env : CEnv) : CTy := structLayout (ev_option_bytes_v1_fields env)

/-- `ev_result_i32_v1_t`: `{ uint32_t tag; union { uint32_t ok; uint32_t err; } payload; }`. -/
def ev_result_i32_v1_fields (_env : CEnv) : List CTy := [u32_t, unionLayout [u32_t, u32_t]]

def ev_result_i32_v1_t (env : CEnv) : CTy := structLayout (ev_result_i32_v1_fields env)

/-- `ev_result_bytes_v1_t`: `{ uint32_t tag; union { ev_bytes_v1_t ok; uint32_t err; } payload; }`. -/
def ev_result_bytes_v1_fields (env : CEnv) : List CTy :=
  [u32_t, unionLayout [ev_bytes_v1_t env, u32_t]]

def ev_result_bytes_v1_t (env : CEnv) : CTy := structLayout (ev_result_bytes_v1_fields env)

/-- `ev_iface_v1_t`: `{ uint32_t data; uint32_t vtable; }`. -/
def ev_iface_v1_fields (_env : CEnv) : List CTy := [u32_t, u32_t]

def ev_iface_v1_t (env : CEnv) : CTy := structLayout (ev_iface_v1_fields env)

/-! ### ABI v2 container layouts (`x07_abi_v2.h`, non-debug build) -/

/-- `ev_bytes_v2_t`: `{ uint8_t* ptr; uint32_t len; }`. -/
def ev_bytes_v2_fields (env : CEnv) : List CTy := [ptr_t env, u32_t]

def ev_bytes_v2_t (env : CEnv) : CTy := structLayout (ev_bytes_v2_fields env)

/-- `ev_bytes_view_v2_t`: `{ uint8_t* ptr; uint32_t len; }` (debug fields
compiled out). -/
def ev_bytes_view_v2_fields (env : CEnv) : List CTy := [ptr_t env, u32_t]

def ev_bytes_view_v2_t (env : CEnv) : CTy := structLayout (ev_bytes_view_v2_fields env)

/-- `ev_vec_u8_v2_t`: `{ uint8_t* data; uint32_t len; uint32_t cap; }`. -/
def ev_vec_u8_v2_fields (env : CEnv) : List CTy := [ptr_t env, u32_t, u32_t]

def ev_vec_u8_v2_t (env : CEnv) : CTy := structLayout (ev_vec_u8_v2_fields env)

/-- `ev_option_i32_v2_t`: `{ uint32_t tag; uint32_t payload; }`. -/
def ev_option_i32_v2_fields (_env : CEnv) : List CTy := [u32_t, u32_t]

def ev_option_i32_v2_t (env : CEnv) : CTy := structLayout (ev_option_i32_v2_fields env)

/-- `ev_option_bytes_v2_t`: `{ uint32_t tag; ev_bytes_v2_t payload; }`. -/
def ev_option_bytes_v2_fields (env : CEnv) : List CTy := [u32_t, ev_bytes_v2_t env]

def ev_option_bytes_v2_t (env : CEnv) : CTy := structLayout (ev_option_bytes_v2_fields env)

/-- `ev_result_i32_v2_t`: `{ uint32_t tag; union { uint32_t ok; uint32_t err; } payload; }`. -/
def ev_result_i32_v2_fields (_env : CEnv) : List CTy := [u32_t, unionLayout [u32_t, u32_t]]

def ev_result_i32_v2_t (env : CEnv) : CTy := structLayout (ev_result_i32_v2_fields env)

/-- `ev_result_bytes_v2_t`: `{ uint32_t tag; union { ev_bytes_v2_t ok; uint32_t err; } payload; }`. -/
def ev_result_bytes_v2_fields (env : CEnv) : List CTy :=
  [u32_t, unionLayout [ev_bytes_v2_t env, u32_t]]

def ev_result_bytes_v2_t (env : CEnv) : CTy := structLayout (ev_result_bytes_v2_fields env)

/-- `ev_iface_v2_t`: `{ uint32_t data; uint32_t vtable; }`. -/
def ev_iface_v2_fields (_env : CEnv) : List CTy := [u32_t, u32_t]

def ev_iface_v2_t (env : CEnv) : CTy := structLayout (ev_iface_v2_fields env)

/-- The LP64 environment (8-byte pointers with 8-byte alignment), the usual
64-bit Linux/macOS target of the headers. -/
def lp64 : CEnv := ⟨8, 8⟩

/-! ## Trap codes (`x07_math_abi_v1.h`, `x07_time_abi_v1.h`) -/

def EV_TRAP_MATH_BADLEN_F64 : Nat := 9100
def EV_TRAP_MATH_BADLEN_U32 : Nat := 9101
def EV_TRAP_MATH_INTERNAL : Nat := 9102
def EV_TRAP_TIME_INTERNAL : Nat := 9200

/-- The trap codes defined by the math backend family (`x07_math_abi_v1.h`). -/
def mathTrapCodes : List Nat :=
  [EV_TRAP_MATH_BADLEN_F64, EV_TRAP_MATH_BADLEN_U32, EV_TRAP_MATH_INTERNAL]

/-- The trap codes defined by the time backend family (`x07_time_abi_v1.h`). -/
def timeTrapCodes : List Nat := [EV_TRAP_TIME_INTERNAL]

/-- The 100-wide reserved trap-code band of backend family `n`:
codes `9100 + n*100 .. 9100 + n*100 + 99`. -/
def inFamilyBand (n c : Nat) : Prop := 9100 + n * 100 ≤ c ∧ c ≤ 9100 + n * 100 + 99

instance (n c : Nat) : Decidable (inFamilyBand n c) := by
  unfold inFamilyBand; infer_instance

/-- Family index of the math backend in the observed band pattern. -/
def mathFamily : Nat := 0

/-- Family index of the time backend in the observed band pattern. -/
def timeFamily : Nat := 1

/-! ## Shim buffer-slot tables (`openssl_shim.c`, `zlib_shim.c`)

Both shims keep two parallel global arrays of `X07_EXT_*_MAX_BUFS = 4096`
entries, `static uint8_t* g_bufs[]` (buffer pointer or `NULL`) and
`static uint32_t g_lens[]` (buffer length).  We model a table as a pair of
total functions; slots `>= 4096` stand for memory outside the arrays, which
the guarded code never touches. -/

def X07_EXT_OPENSSL_MAX_BUFS : Nat := 4096
def X07_EXT_ZLIB_MAX_BUFS : Nat := 4096

/-- State of one shim buffer-slot table: `g_bufs` (a live buffer's contents,
or `none` for a `NULL` entry) and `g_lens`. -/
structure ShimBufTable where
  bufs : Nat → Option (List Nat)
  lens : Nat → Nat

/-- The zero-initialised table the C globals start in. -/
def ShimBufTable.empty : ShimBufTable := ⟨fun _ => none, fun _ => 0⟩

/-- The scan shared by `x07_ext_openssl_alloc_buf_slot` and
`x07_ext_zlib_alloc_slot`: `for (i = 1; i < 4096; i++) if (!g_bufs[i]) return i;
return 0;`. -/
def shimAllocSlot (bufs : Nat → Option (List Nat)) : Nat :=
  match (List.range' 1 4095).find? (fun i => (bufs i).isNone) with
  | some i => i
  | none => 0

/-- `x07_ext_openssl_alloc_buf_slot` (openssl_shim.c line 111). -/
def x07_ext_openssl_alloc_buf_slot (st : ShimBufTable) : Nat := shimAllocSlot st.bufs

/-- `x07_ext_zlib_alloc_slot` (zlib_shim.c line 13). -/
def x07_ext_zlib_alloc_slot (st : ShimBufTable) : Nat := shimAllocSlot st.bufs

/-- `g_bufs[slot] = doc; g_lens[slot] = doc_len;` — storing a granted buffer. -/
def shimStoreBuf (st : ShimBufTable) (slot : Nat) (doc : List Nat) : ShimBufTable :=
  { bufs := fun i => if i = slot then some doc else st.bufs i,
    lens := fun i => if i = slot then doc.length else st.lens i }

/-- `x07_ext_openssl_buf_free` (openssl_shim.c line 128): out-of-range and
zero handles return immediately; otherwise the slot's pointer is freed when
non-`NULL` and both entries are zeroed. -/
def x07_ext_openssl_buf_free (st : ShimBufTable) (handle : Nat) : ShimBufTable :=
  if handle = 0 ∨ X07_EXT_OPENSSL_MAX_BUFS ≤ handle then st
  else
    { bufs := fun i => if i = handle then none else st.bufs i,
      lens := fun i => if i = handle then 0 else st.lens i }

/-- `x07_ext_zlib_buf_free` (zlib_shim.c line 173), same shape as the
openssl one. -/
def x07_ext_zlib_buf_free (st : ShimBufTable) (handle : Nat) : ShimBufTable :=
  if handle = 0 ∨ X07_EXT_ZLIB_MAX_BUFS ≤ handle then st
  else
    { bufs := fun i => if i = handle then none else st.bufs i,
      lens := fun i => if i = handle then 0 else st.lens i }

/-- Modelled from the spec: the fs backend implementation (`libx07_ext_fs.a`)
behind `x07_ext_fs_stream_drop_v1` is not in the tree — `x07_ext_fs_abi_v1.h`
only declares the entrypoint.  Per §4.4 of the spec, a drop on an
already-closed or invalid handle must be a safe no-op, never a trap, so the
backend's writer-handle table is modelled as a set of open handles and the
drop closes the handle when it is open and does nothing otherwise, always
returning status 0. -/
structure FsWriterTable where
  isOpen : Int → Bool

def x07_ext_fs_stream_drop_v1 (st : FsWriterTable) (writer_handle : Int) :
    FsWriterTable × Int :=
  if 0 < writer_handle ∧ st.isOpen writer_handle then
    (⟨fun i => if i = writer_handle then false else st.isOpen i⟩, 0)
  else
    (st, 0)

/-! ## Math backend codec (`x07_math_abi_v1.h`)

The math backend library (`libx07_math.a`) is not in the tree; the header is.
The definitions below are modelled from the header's documented conventions:
f64 values travel as 8 bytes (little-endian IEEE-754 binary64 bit pattern),
u32 values as 4 bytes little-endian, and every function traps with
`EV_TRAP_MATH_BADLEN_*` when an input byte string has the wrong length. -/

/-- Outcome of a math backend call: a fatal trap (`ev_trap(code)`), a
returned byte string, or a `Result` error arm (`tag = 0` with an error
code). -/
inductive EvOutcome where
  | trap (code : Nat)
  | ok (bytes : List Nat)
  | errResult (code : Nat)
deriving DecidableEq

/-- Little-endian encoding of a 64-bit value into 8 bytes. -/
def encode_u64le (v : Nat) : List Nat :=
  [v % 256, v / 2 ^ 8 % 256, v / 2 ^ 16 % 256, v / 2 ^ 24 % 256,
   v / 2 ^ 32 % 256, v / 2 ^ 40 % 256, v / 2 ^ 48 % 256, v / 2 ^ 56 % 256]

/-- Little-endian decoding of 8 bytes into a 64-bit value (0 on any other
shape; a real decode is guarded by the bad-length trap first). -/
def decode_u64le : List Nat → Nat
  | [b0, b1, b2, b3, b4, b5, b6, b7] =>
      b0 % 256 + b1 % 256 * 2 ^ 8 + b2 % 256 * 2 ^ 16 + b3 % 256 * 2 ^ 24 +
      b4 % 256 * 2 ^ 32 + b5 % 256 * 2 ^ 40 + b6 % 256 * 2 ^ 48 + b7 % 256 * 2 ^ 56
  | _ => 0

/-- Little-endian encoding of a 32-bit value into 4 bytes. -/
def encode_u32le (v : Nat) : List Nat :=
  [v % 256, v / 2 ^ 8 % 256, v / 2 ^ 16 % 256, v / 2 ^ 24 % 256]

/-- Little-endian decoding of 4 bytes into a 32-bit value. -/
def decode_u32le : List Nat → Nat
  | [b0, b1, b2, b3] =>
      b0 % 256 + b1 % 256 * 2 ^ 8 + b2 % 256 * 2 ^ 16 + b3 % 256 * 2 ^ 24
  | _ => 0

/-- Modelled from the spec: the fixed-width f64 decode step every math
builtin performs on an f64 byte argument.  Per `x07_math_abi_v1.h`
(lines 69-82), a length other than 8 traps with `EV_TRAP_MATH_BADLEN_F64`;
otherwise the 8 bytes are the value's bit pattern. -/
def ev_math_decode_f64_v1 (x : List Nat) : EvOutcome :=
  if x.length = 8 then .ok x else .trap EV_TRAP_MATH_BADLEN_F64

/-- Modelled from the spec: the fixed-width u32 decode step; a length other
than 4 traps with `EV_TRAP_MATH_BADLEN_U32`. -/
def ev_math_decode_u32_v1 (x : List Nat) : EvOutcome :=
  if x.length = 4 then .ok x else .trap EV_TRAP_MATH_BADLEN_U32

/-- Modelled from the spec: the shape of a binary f64 builtin such as
`ev_math_f64_add_v1` — both arguments must be 8 bytes or the call traps with
`EV_TRAP_MATH_BADLEN_F64`; on success the result is the 8-byte encoding of
the operation applied to the two bit patterns. -/
def ev_math_f64_bin_v1 (op : Nat → Nat → Nat) (a b : List Nat) : EvOutcome :=
  if a.length = 8 ∧ b.length = 8 then
    .ok (encode_u64le (op (decode_u64le a) (decode_u64le b) % 2 ^ 64))
  else .trap EV_TRAP_MATH_BADLEN_F64

/-- Modelled from the spec: `ev_math_f64_to_bits_u64le_v1`
(`x07_math_abi_v1.h` lines 148-149) returns "the raw IEEE-754 binary64 bits
as u64le bytes (same 8 bytes as input)", trapping on a wrong-length input
like every other math builtin. -/
def ev_math_f64_to_bits_u64le_v1 (x : List Nat) : EvOutcome :=
  if x.length = 8 then .ok x else .trap EV_TRAP_MATH_BADLEN_F64

/-! ## Transducer emit channel (`x07_stream_xf_plugin_abi_v1.h`)

The header declares the callback pair `x07_xf_emit_v1 { emit_alloc,
emit_commit }` and the `x07_xf_budget_v1` record; the host that implements
the callbacks is not in the tree.  The host side below is modelled from the
spec (§4.5): `emit_alloc` refuses (non-zero) a request larger than the
remaining per-step byte budget and otherwise grants a buffer of exactly the
requested capacity, accounting it against the step; `emit_commit` validates
`used ≤ cap` before appending the buffer to the output stream and rejects
(non-zero, stream unchanged) otherwise. -/

/-- `x07_out_buf_v1`: granted capacity and the length the plugin set
(`len <= cap` before commit); the data pointer is not modelled. -/
structure x07_out_buf_v1 where
  cap : Nat
  len : Nat
deriving DecidableEq

/-- `x07_xf_budget_v1` (header lines 46-53). -/
structure x07_xf_budget_v1 where
  max_out_bytes_per_step : Nat
  max_out_items_per_step : Nat
  max_out_buf_bytes : Nat
  max_state_bytes : Nat
  max_cfg_bytes : Nat
  max_scratch_bytes : Nat
deriving DecidableEq

/-- Host-side state behind one `x07_xf_emit_v1` channel: the Budget of the
instance, the bytes already granted during the current step, and the
committed output stream. -/
structure EmitChannelState where
  budget : x07_xf_budget_v1
  bytes_this_step : Nat
  committed : List x07_out_buf_v1
deriving DecidableEq

/-- Modelled from the spec: the host implementation of `emit_alloc`.
Returns the status (0 = granted, non-zero = refusal), the granted buffer if
any, and the updated channel state. -/
def emit_alloc (st : EmitChannelState) (cap : Nat) :
    Int × Option x07_out_buf_v1 × EmitChannelState :=
  if st.budget.max_out_bytes_per_step - st.bytes_this_step < cap then (1, none, st)
  else (0, some ⟨cap, 0⟩, { st with bytes_this_step := st.bytes_this_step + cap })

/-- Modelled from the spec: the host implementation of `emit_commit`.
Returns the status (0 = accepted) and the updated channel state. -/
def emit_commit (st : EmitChannelState) (out : x07_out_buf_v1) :
    Int × EmitChannelState :=
  if out.len ≤ out.cap then (0, { st with committed := st.committed ++ [out] })
  else (1, st)

/-! ## `openssl_shim.c` entrypoints -/

/-- `x07_ext_write_u32_le` (openssl_shim.c line 135). -/
def x07_ext_write_u32_le (v : Nat) : List Nat :=
  [v % 256, v / 2 ^ 8 % 256, v / 2 ^ 16 % 256, v / 2 ^ 24 % 256]

/-- `x07_ext_make_err_doc` (openssl_shim.c line 142): a 9-byte document —
tag byte 0, the error code as 4 bytes little-endian, then 4 zero bytes.
(`malloc` is assumed to succeed in the embedding.) -/
def x07_ext_make_err_doc (code : Nat) : List Nat :=
  0 :: (x07_ext_write_u32_le code ++ x07_ext_write_u32_le 0)

/-- `x07_ext_openssl_rand_bytes_alloc` (openssl_shim.c line 210).  The call
to OpenSSL's `RAND_bytes` for `len` bytes is modelled by the oracle `rng`
(`some bs` with `bs.length = len` on success, `none` on RNG failure);
`malloc` is assumed to succeed.  Returns the status (`0` on success, `-1`
when no slot is left), the handle written to `*out_handle`, and the updated
table. -/
def x07_ext_openssl_rand_bytes_alloc (st : ShimBufTable) (len : Nat)
    (rng : Option (List Nat)) : Int × Nat × ShimBufTable :=
  if 1024 * 1024 < len then
    let doc := x07_ext_make_err_doc 3
    let slot := x07_ext_openssl_alloc_buf_slot st
    if slot = 0 then (-1, 0, st)
    else (0, slot, shimStoreBuf st slot doc)
  else
    let doc :=
      if len = 0 then [1]
      else
        match rng with
        | some bs => 1 :: bs
        | none => x07_ext_make_err_doc 1
    let slot := x07_ext_openssl_alloc_buf_slot st
    if slot = 0 then (-1, 0, st)
    else (0, slot, shimStoreBuf st slot doc)

/-! ## Base64url (no padding) encoder (`openssl_shim.c` lines 152-190) -/

/-- The URL-safe base64 alphabet of `x07_ext_b64url_char`. -/
def b64url_tbl : List Char :=
  "ABCDEFGHIJKLMNOPQRSTUVWXYZabcdefghijklmnopqrstuvwxyz0123456789-_".toList

/-- `x07_ext_b64url_char` (openssl_shim.c line 152): `tbl[v & 0x3f]`. -/
def x07_ext_b64url_char (v : Nat) : Char := b64url_tbl.getD (v % 64) 'A'

/-- `x07_ext_b64url_nopad` (openssl_shim.c line 157), with the input byte
array as a list (each element read as a `uint8_t`, hence the `% 256`) and
the NUL-terminated output string as its list of characters (the reported
`*out_len` is the list's length).  The C loop consumes three input bytes per
iteration and then handles the remainder of one or two bytes, which is the
structural recursion below. -/
def x07_ext_b64url_nopad : List Nat → List Char
  | b0 :: b1 :: b2 :: rest =>
      let v := b0 % 256 * 2 ^ 16 + b1 % 256 * 2 ^ 8 + b2 % 256
      x07_ext_b64url_char (v / 2 ^ 18 % 64) :: x07_ext_b64url_char (v / 2 ^ 12 % 64) ::
        x07_ext_b64url_char (v / 2 ^ 6 % 64) :: x07_ext_b64url_char (v % 64) ::
        x07_ext_b64url_nopad rest
  | [b0, b1] =>
      let v := b0 % 256 * 2 ^ 16 + b1 % 256 * 2 ^ 8
      [x07_ext_b64url_char (v / 2 ^ 18 % 64), x07_ext_b64url_char (v / 2 ^ 12 % 64),
       x07_ext_b64url_char (v / 2 ^ 6 % 64)]
  | [b0] =>
      let v := b0 % 256 * 2 ^ 16
      [x07_ext_b64url_char (v / 2 ^ 18 % 64), x07_ext_b64url_char (v / 2 ^ 12 % 64)]
  | [] => []

/-- Index of a character in the URL-safe alphabet: the standard base64url
digit value. -/
def b64url_dec (c : Char) : Nat := b64url_tbl.indexOf c

/-- The standard base64url (no padding) decoder, used as the reference
decode for the round-trip property: four digits yield three bytes, a final
group of three digits yields two bytes, and a final group of two digits
yields one byte. -/
def b64url_decode : List Char → List Nat
  | c0 :: c1 :: c2 :: c3 :: rest =>
      let v := b64url_dec c0 * 2 ^ 18 + b64url_dec c1 * 2 ^ 12 +
        b64url_dec c2 * 2 ^ 6 + b64url_dec c3
      v / 2 ^ 16 % 256 :: v / 2 ^ 8 % 256 :: v % 256 :: b64url_decode rest
  | [c0, c1, c2] =>
      let v := b64url_dec c0 * 2 ^ 18 + b64url_dec c1 * 2 ^ 12 + b64url_dec c2 * 2 ^ 6
      [v / 2 ^ 16 % 256, v / 2 ^ 8 % 256]
  | [c0, c1] =>
      let v := b64url_dec c0 * 2 ^ 18 + b64url_dec c1 * 2 ^ 12
      [v / 2 ^ 16 % 256]
  | _ => []

/-- A character of the URL-safe base64 alphabet `A-Z a-z 0-9 - _`. -/
def isB64UrlChar (c : Char) : Bool :=
  ('A' ≤ c && c ≤ 'Z') || ('a' ≤ c && c ≤ 'z') || ('0' ≤ c && c ≤ '9') ||
    c = '-' || c = '_'

/-! ## C1: v1/v2 layout identity and container alignment -/

/-- C1 (counterexample): in the LP64 environment the `ev_option_i32`
container does *not* have native pointer alignment — it is two `uint32_t`
fields, so its alignment is 4 while a pointer's is 8 (exactly what
`abi_layout.c` asserts via `alignof(ev_option_i32_v2_t) == alignof(uint32_t)`).
Hence the claim that every container of the family has "the same alignment
as a native pointer" is false. -/
theorem ev_option_i32_align_ne_ptrAlign :
    ¬ ((ev_option_i32_v1_t lp64).align = lp64.ptrAlign ∧
       (ev_option_i32_v2_t lp64).align = lp64.ptrAlign) := by
  decide

/-- C1 (amended): in every compilation environment, the v1 and v2 layouts of
the same conceptual container are byte-identical — same field order, same
size, same alignment; moreover (for any environment whose pointer alignment
is at least 4) the pointer-bearing containers (`bytes`, `bytes_view`,
`vec_u8`, `option_bytes`, `result_bytes`) have exactly native pointer
alignment, while the all-`uint32` containers (`option_i32`, `result_i32`,
`iface`) have 4-byte (`uint32_t`) alignment. -/
theorem abi_v1_v2_layouts_identical (env : CEnv) (h : 4 ≤ env.ptrAlign) :
    (ev_bytes_v1_fields env = ev_bytes_v2_fields env ∧
      ev_bytes_v1_t env = ev_bytes_v2_t env) ∧
    (ev_bytes_view_v1_fields env = ev_bytes_view_v2_fields env ∧
      ev_bytes_view_v1_t env = ev_bytes_view_v2_t env) ∧
    (ev_vec_u8_v1_fields env = ev_vec_u8_v2_fields env ∧
      ev_vec_u8_v1_t env = ev_vec_u8_v2_t env) ∧
    (ev_option_i32_v1_fields env = ev_option_i32_v2_fields env ∧
      ev_option_i32_v1_t env = ev_option_i32_v2_t env) ∧
    (ev_option_bytes_v1_fields env = ev_option_bytes_v2_fields env ∧
      ev_option_bytes_v1_t env = ev_option_bytes_v2_t env) ∧
    (ev_result_i32_v1_fields env = ev_result_i32_v2_fields env ∧
      ev_result_i32_v1_t env = ev_result_i32_v2_t env) ∧
    (ev_result_bytes_v1_fields env = ev_result_bytes_v2_fields env ∧
      ev_result_bytes_v1_t env = ev_result_bytes_v2_t env) ∧
    (ev_iface_v1_fields env = ev_iface_v2_fields env ∧
      ev_iface_v1_t env = ev_iface_v2_t env) ∧
    ((ev_bytes_v1_t env).align = env.ptrAlign ∧
      (ev_bytes_view_v1_t env).align = env.ptrAlign ∧
      (ev_vec_u8_v1_t env).align = env.ptrAlign ∧
      (ev_option_bytes_v1_t env).align = env.ptrAlign ∧
      (ev_result_bytes_v1_t env).align = env.ptrAlign) ∧
    ((ev_option_i32_v1_t env).align = 4 ∧
      (ev_result_i32_v1_t env).align = 4 ∧
      (ev_iface_v1_t env).align = 4) := by
  repeat' apply And.intro
  all_goals first
    | rfl
    | (simp only [ev_bytes_v1_t, ev_bytes_view_v1_t, ev_vec_u8_v1_t,
        ev_option_i32_v1_t, ev_option_bytes_v1_t, ev_result_i32_v1_t,
        ev_result_bytes_v1_t, ev_iface_v1_t, ev_bytes_v1_fields,
        ev_bytes_view_v1_fields, ev_vec_u8_v1_fields, ev_option_i32_v1_fields,
        ev_option_bytes_v1_fields, ev_result_i32_v1_fields,
        ev_result_bytes_v1_fields, ev_iface_v1_fields, structLayout,
        unionLayout, aggrAlign, alignUp, u32_t, ptr_t, List.foldl]
       omega)

/-- Witness for `abi_v1_v2_layouts_identical` at the LP64 environment. -/
theorem abi_v1_v2_layouts_identical_lp64 :
    (ev_bytes_v1_t lp64 = ev_bytes_v2_t lp64 ∧ (ev_bytes_v1_t lp64).align = lp64.ptrAlign) ∧
    (ev_option_i32_v1_t lp64).align = 4 := by
  have h := abi_v1_v2_layouts_identical lp64 (by decide)
  exact ⟨⟨h.1.2, h.2.2.2.2.2.2.2.2.1.1⟩, h.2.2.2.2.2.2.2.2.2.1⟩

/-! ## C6: reserved trap-code bands -/

/-- C6: every trap code defined by the math backend lies in the math
family's band `9100..9199` (family 0 in the pattern `9100 + N*100 ..
9100 + N*100 + 99`), every time backend trap code lies in the time family's
band `9200..9299` (family 1), and no defined code lies in the other
family's band. -/
theorem trap_codes_in_family_bands :
    (∀ c ∈ mathTrapCodes, inFamilyBand mathFamily c ∧ ¬ inFamilyBand timeFamily c) ∧
    (∀ c ∈ timeTrapCodes, inFamilyBand timeFamily c ∧ ¬ inFamilyBand mathFamily c) := by
  decide

/-- Witness for `trap_codes_in_family_bands` at `EV_TRAP_MATH_BADLEN_F64`. -/
theorem trap_codes_in_family_bands_witness :
    EV_TRAP_MATH_BADLEN_F64 ∈ mathTrapCodes ∧
      (inFamilyBand mathFamily EV_TRAP_MATH_BADLEN_F64 ∧
        ¬ inFamilyBand timeFamily EV_TRAP_MATH_BADLEN_F64) :=
  ⟨by decide, trap_codes_in_family_bands.1 EV_TRAP_MATH_BADLEN_F64 (by decide)⟩

/-! ## C2: two-phase emit commit validation -/

/-- C2: a commit whose buffer has `used (len) > cap` is rejected by the
host's `emit_commit` (non-zero status, output stream unchanged); a commit
the host accepts (status 0) satisfies `used ≤ cap`; and if every buffer
already in the output stream satisfies `used ≤ cap`, so does every buffer
in the stream after any commit. -/
theorem emit_commit_validates_used_le_cap (st : EmitChannelState) (out : x07_out_buf_v1) :
    (out.cap < out.len → (emit_commit st out).1 ≠ 0 ∧ (emit_commit st out).2 = st) ∧
    ((emit_commit st out).1 = 0 → out.len ≤ out.cap) ∧
    ((∀ b ∈ st.committed, b.len ≤ b.cap) →
      ∀ b ∈ (emit_commit st out).2.committed, b.len ≤ b.cap) := by
  by_cases h : out.len ≤ out.cap
  · refine ⟨fun hc => absurd h (by omega), fun _ => h, fun hall b hb => ?_⟩
    simp only [emit_commit, if_pos h] at hb
    rcases List.mem_append.mp hb with hb | hb
    · exact hall b hb
    · simp only [List.mem_singleton] at hb
      exact hb ▸ h
  · refine ⟨fun _ => ⟨?_, ?_⟩, fun h0 => ?_, fun hall b hb => ?_⟩
    · simp [emit_commit, if_neg h]
    · simp [emit_commit, if_neg h]
    · simp [emit_commit, if_neg h] at h0
    · simp only [emit_commit, if_neg h] at hb
      exact hall b hb

/-- Witness for `emit_commit_validates_used_le_cap`: a commit with
`used = 9 > cap = 4` is rejected and leaves the stream unchanged. -/
theorem emit_commit_validates_used_le_cap_witness :
    (4 < 9 →
      (emit_commit ⟨⟨16, 4, 256, 64, 64, 64⟩, 0, []⟩ ⟨4, 9⟩).1 ≠ 0 ∧
      (emit_commit ⟨⟨16, 4, 256, 64, 64, 64⟩, 0, []⟩ ⟨4, 9⟩).2 =
        ⟨⟨16, 4, 256, 64, 64, 64⟩, 0, []⟩) ∧
    ((emit_commit ⟨⟨16, 4, 256, 64, 64, 64⟩, 0, []⟩ ⟨4, 9⟩).1 = 0 → 9 ≤ 4) ∧
    ((∀ b ∈ ([] : List x07_out_buf_v1), b.len ≤ b.cap) →
      ∀ b ∈ (emit_commit ⟨⟨16, 4, 256, 64, 64, 64⟩, 0, []⟩ ⟨4, 9⟩).2.committed,
        b.len ≤ b.cap) :=
  emit_commit_validates_used_le_cap ⟨⟨16, 4, 256, 64, 64, 64⟩, 0, []⟩ ⟨4, 9⟩

/-! ## C3: emit alloc budget enforcement -/

/-- C3: a call to the emit channel's `emit_alloc` with a requested capacity
greater than the remaining per-step byte budget returns a non-zero refusal
and no buffer, and every buffer the host does grant has capacity bounded by
the Budget's per-step byte ceiling `max_out_bytes_per_step`. -/
theorem emit_alloc_enforces_budget (st : EmitChannelState) (cap : Nat) :
    (st.budget.max_out_bytes_per_step - st.bytes_this_step < cap →
      (emit_alloc st cap).1 ≠ 0 ∧ (emit_alloc st cap).2.1 = none) ∧
    (∀ b, (emit_alloc st cap).2.1 = some b →
      b.cap ≤ st.budget.max_out_bytes_per_step) := by
  by_cases h : st.budget.max_out_bytes_per_step - st.bytes_this_step < cap
  · refine ⟨fun _ => ⟨?_, ?_⟩, fun b hb => ?_⟩
    · simp [emit_alloc, if_pos h]
    · simp [emit_alloc, if_pos h]
    · simp [emit_alloc, if_pos h] at hb
  · refine ⟨fun hc => absurd hc h, fun b hb => ?_⟩
    simp only [emit_alloc, if_neg h, Option.some.injEq] at hb
    cases hb
    simp only []
    omega

/-- Witness for `emit_alloc_enforces_budget`: with a 16-byte per-step
ceiling and nothing yet emitted, a 32-byte request is refused. -/
theorem emit_alloc_enforces_budget_witness :
    ((16 : Nat) - 0 < 32 →
      (emit_alloc ⟨⟨16, 4, 256, 64, 64, 64⟩, 0, []⟩ 32).1 ≠ 0 ∧
      (emit_alloc ⟨⟨16, 4, 256, 64, 64, 64⟩, 0, []⟩ 32).2.1 = none) ∧
    (∀ b, (emit_alloc ⟨⟨16, 4, 256, 64, 64, 64⟩, 0, []⟩ 32).2.1 = some b →
      b.cap ≤ 16) :=
  emit_alloc_enforces_budget ⟨⟨16, 4, 256, 64, 64, 64⟩, 0, []⟩ 32

/-! ## C4: wrong-length numeric payloads trap, never a Result error -/

/-- C4: a fixed-width math-backend decode given a byte string of any length
other than the required one (8 for f64, 4 for u32) traps with the math
family's bad-length code (`EV_TRAP_MATH_BADLEN_F64 = 9100`,
`EV_TRAP_MATH_BADLEN_U32 = 9101`) and never produces a `Result` error for
that condition; a binary f64 builtin and `ev_math_f64_to_bits_u64le_v1`
behave the same way on any wrong-length argument. -/
theorem math_badlen_traps (x : List Nat) :
    (x.length ≠ 8 →
      ev_math_decode_f64_v1 x = .trap EV_TRAP_MATH_BADLEN_F64 ∧
      ∀ c, ev_math_decode_f64_v1 x ≠ .errResult c) ∧
    (x.length ≠ 4 →
      ev_math_decode_u32_v1 x = .trap EV_TRAP_MATH_BADLEN_U32 ∧
      ∀ c, ev_math_decode_u32_v1 x ≠ .errResult c) ∧
    (∀ (op : Nat → Nat → Nat) (b : List Nat), x.length ≠ 8 ∨ b.length ≠ 8 →
      ev_math_f64_bin_v1 op x b = .trap EV_TRAP_MATH_BADLEN_F64 ∧
      ∀ c, ev_math_f64_bin_v1 op x b ≠ .errResult c) ∧
    (x.length ≠ 8 →
      ev_math_f64_to_bits_u64le_v1 x = .trap EV_TRAP_MATH_BADLEN_F64 ∧
      ∀ c, ev_math_f64_to_bits_u64le_v1 x ≠ .errResult c) := by
  refine ⟨fun h => ?_, fun h => ?_, fun op b h => ?_, fun h => ?_⟩
  · simp [ev_math_decode_f64_v1, h]
  · simp [ev_math_decode_u32_v1, h]
  · have : ¬ (x.length = 8 ∧ b.length = 8) := by tauto
    simp [ev_math_f64_bin_v1, this]
  · simp [ev_math_f64_to_bits_u64le_v1, h]

/-- Witness for `math_badlen_traps` at the 3-byte input `[0, 0, 0]`. -/
theorem math_badlen_traps_witness :
    ev_math_decode_f64_v1 [0, 0, 0] = .trap EV_TRAP_MATH_BADLEN_F64 ∧
    ev_math_decode_u32_v1 [0, 0, 0] = .trap EV_TRAP_MATH_BADLEN_U32 :=
  ⟨((math_badlen_traps [0, 0, 0]).1 (by decide)).1,
   ((math_badlen_traps [0, 0, 0]).2.1 (by decide)).1⟩

/-! ## C5: fixed-width little-endian codecs round-trip -/

/-- C5: for every 64-bit value (hence every f64 bit pattern, including NaN
payloads, ±0 and ±∞) and every 32-bit value, decoding the fixed
little-endian encoding yields the value back; and
`ev_math_f64_to_bits_u64le_v1` returns exactly the 8 bytes it was given. -/
theorem fixed_width_codec_roundtrip :
    (∀ v, v < 2 ^ 64 → decode_u64le (encode_u64le v) = v) ∧
    (∀ v, v < 2 ^ 32 → decode_u32le (encode_u32le v) = v) ∧
    (∀ b : List Nat, b.length = 8 → ev_math_f64_to_bits_u64le_v1 b = .ok b) := by
  refine ⟨fun v hv => ?_, fun v hv => ?_, fun b hb => ?_⟩
  · simp only [encode_u64le, decode_u64le]
    norm_num
    omega
  · simp only [encode_u32le, decode_u32le]
    norm_num
    omega
  · simp [ev_math_f64_to_bits_u64le_v1, hb]

/-- Witness for `fixed_width_codec_roundtrip` at concrete values: the bit
pattern of a quiet NaN with payload (`0x7ff800000000002a`), a u32 value, and
a concrete 8-byte buffer. -/
theorem fixed_width_codec_roundtrip_witness :
    (0x7ff800000000002a < 2 ^ 64 ∧
      decode_u64le (encode_u64le 0x7ff800000000002a) = 0x7ff800000000002a) ∧
    (0xdeadbeef < 2 ^ 32 ∧ decode_u32le (encode_u32le 0xdeadbeef) = 0xdeadbeef) ∧
    (([0, 0, 0, 0, 0, 0, 0xf0, 0x7f] : List Nat).length = 8 ∧
      ev_math_f64_to_bits_u64le_v1 [0, 0, 0, 0, 0, 0, 0xf0, 0x7f] =
        .ok [0, 0, 0, 0, 0, 0, 0xf0, 0x7f]) :=
  ⟨⟨by norm_num, fixed_width_codec_roundtrip.1 _ (by norm_num)⟩,
   ⟨by norm_num, fixed_width_codec_roundtrip.2.1 _ (by norm_num)⟩,
   ⟨by decide, fixed_width_codec_roundtrip.2.2 _ (by decide)⟩⟩

/-! ## C7: dropping an invalid or already-freed handle is a no-op -/

/-- C7: for each of `x07_ext_openssl_buf_free`, `x07_ext_zlib_buf_free` and
`x07_ext_fs_stream_drop_v1`, freeing/dropping a zero, out-of-range or
already-freed/closed handle leaves the table unchanged (and the fs drop
still returns status 0); none of these paths can trap, since the functions
are total and never invoke the trap hook. -/
theorem handle_drop_noop (st : ShimBufTable) (h : Nat)
    (fst : FsWriterTable) (wh : Int) :
    (h = 0 ∨ X07_EXT_OPENSSL_MAX_BUFS ≤ h ∨ (st.bufs h = none ∧ st.lens h = 0) →
      x07_ext_openssl_buf_free st h = st) ∧
    (h = 0 ∨ X07_EXT_ZLIB_MAX_BUFS ≤ h ∨ (st.bufs h = none ∧ st.lens h = 0) →
      x07_ext_zlib_buf_free st h = st) ∧
    (wh ≤ 0 ∨ fst.isOpen wh = false →
      x07_ext_fs_stream_drop_v1 fst wh = (fst, 0)) := by
  refine ⟨fun hc => ?_, fun hc => ?_, fun hc => ?_⟩
  · by_cases hg : h = 0 ∨ X07_EXT_OPENSSL_MAX_BUFS ≤ h
    · rw [x07_ext_openssl_buf_free, if_pos hg]
    · have hbl : st.bufs h = none ∧ st.lens h = 0 := by tauto
      rw [x07_ext_openssl_buf_free, if_neg hg]
      cases st with
      | mk bufs lens =>
        simp only [ShimBufTable.mk.injEq]
        constructor
        · funext i
          by_cases hi : i = h
          · simp only at hbl
            simp [hi, hbl.1]
          · simp [hi]
        · funext i
          by_cases hi : i = h
          · simp only at hbl
            simp [hi, hbl.2]
          · simp [hi]
  · by_cases hg : h = 0 ∨ X07_EXT_ZLIB_MAX_BUFS ≤ h
    · rw [x07_ext_zlib_buf_free, if_pos hg]
    · have hbl : st.bufs h = none ∧ st.lens h = 0 := by tauto
      rw [x07_ext_zlib_buf_free, if_neg hg]
      cases st with
      | mk bufs lens =>
        simp only [ShimBufTable.mk.injEq]
        constructor
        · funext i
          by_cases hi : i = h
          · simp only at hbl
            simp [hi, hbl.1]
          · simp [hi]
        · funext i
          by_cases hi : i = h
          · simp only at hbl
            simp [hi, hbl.2]
          · simp [hi]
  · rw [x07_ext_fs_stream_drop_v1, if_neg]
    rintro ⟨hpos, hopen⟩
    rcases hc with hc | hc
    · omega
    · rw [hopen] at hc
      exact Bool.noConfusion hc

/-- Witness for `handle_drop_noop`: freeing handle 0 and an out-of-range
handle on the zero-initialised tables, and dropping a never-opened fs
writer handle, are all no-ops. -/
theorem handle_drop_noop_witness :
    x07_ext_openssl_buf_free ShimBufTable.empty 0 = ShimBufTable.empty ∧
    x07_ext_zlib_buf_free ShimBufTable.empty 5000 = ShimBufTable.empty ∧
    x07_ext_fs_stream_drop_v1 ⟨fun _ => false⟩ 5 = (⟨fun _ => false⟩, 0) :=
  ⟨(handle_drop_noop ShimBufTable.empty 0 ⟨fun _ => false⟩ 5).1 (Or.inl rfl),
   (handle_drop_noop ShimBufTable.empty 5000 ⟨fun _ => false⟩ 5).2.1
     (Or.inr (Or.inl (by decide))),
   (handle_drop_noop ShimBufTable.empty 5000 ⟨fun _ => false⟩ 5).2.2
     (Or.inr rfl)⟩

/-! ## C10: slot allocation grants fresh, in-range, non-zero handles -/

/-- The successful scan returns an in-range slot whose entry is `NULL`. -/
theorem shimAllocSlot_ne_zero (bufs : Nat → Option (List Nat))
    (h : shimAllocSlot bufs ≠ 0) :
    1 ≤ shimAllocSlot bufs ∧ shimAllocSlot bufs < 4096 ∧
      bufs (shimAllocSlot bufs) = none := by
  rcases hf : (List.range' 1 4095).find? (fun i => (bufs i).isNone) with _ | i
  · exact absurd (by unfold shimAllocSlot; rw [hf]) h
  · have hval : shimAllocSlot bufs = i := by unfold shimAllocSlot; rw [hf]
    rw [hval]
    have hp := List.find?_some hf
    have hm := List.mem_of_find?_eq_some hf
    rw [List.mem_range'_1] at hm
    simp only [Option.isNone_iff_eq_none] at hp
    exact ⟨hm.1, by omega, hp⟩

/-- The scan returns 0 only when every slot `1..4095` is occupied. -/
theorem shimAllocSlot_eq_zero (bufs : Nat → Option (List Nat))
    (h0 : shimAllocSlot bufs = 0) :
    ∀ i, 1 ≤ i → i < 4096 → bufs i ≠ none := by
  rcases hf : (List.range' 1 4095).find? (fun i => (bufs i).isNone) with _ | i
  · rw [List.find?_eq_none] at hf
    intro i h1 h2 hnone
    have := hf i (by rw [List.mem_range'_1]; omega)
    simp [hnone] at this
  · exfalso
    have hval : shimAllocSlot bufs = i := by unfold shimAllocSlot; rw [hf]
    have hm := List.mem_of_find?_eq_some hf
    rw [List.mem_range'_1] at hm
    omega

/-- C10: a successful slot allocation in either shim table returns a handle
`h` with `1 ≤ h < 4096` whose slot holds no buffer at the moment of the
grant; a return of 0 always means the table is full (slot 0 is never handed
out); and after storing a buffer in a granted slot, a subsequent successful
grant names a different slot, so two live handles never alias. -/
theorem shim_alloc_slot_fresh (st : ShimBufTable) (h h' : Nat) (buf : List Nat) :
    (x07_ext_openssl_alloc_buf_slot st = h → h ≠ 0 →
      1 ≤ h ∧ h < 4096 ∧ st.bufs h = none) ∧
    (x07_ext_openssl_alloc_buf_slot st = 0 →
      ∀ i, 1 ≤ i → i < 4096 → st.bufs i ≠ none) ∧
    (x07_ext_zlib_alloc_slot st = h → h ≠ 0 →
      1 ≤ h ∧ h < 4096 ∧ st.bufs h = none) ∧
    (x07_ext_zlib_alloc_slot st = 0 →
      ∀ i, 1 ≤ i → i < 4096 → st.bufs i ≠ none) ∧
    (x07_ext_openssl_alloc_buf_slot st = h → h ≠ 0 →
      x07_ext_openssl_alloc_buf_slot (shimStoreBuf st h buf) = h' → h' ≠ 0 →
      h' ≠ h) := by
  refine ⟨fun he hne => ?_, fun he => ?_, fun he hne => ?_, fun he => ?_,
    fun he hne he' hne' hcontra => ?_⟩
  · subst he
    exact shimAllocSlot_ne_zero st.bufs hne
  · exact shimAllocSlot_eq_zero st.bufs he
  · subst he
    exact shimAllocSlot_ne_zero st.bufs hne
  · exact shimAllocSlot_eq_zero st.bufs he
  · subst he
    subst he'
    have hfresh := shimAllocSlot_ne_zero (shimStoreBuf st
      (x07_ext_openssl_alloc_buf_slot st) buf).bufs hne'
    simp only [x07_ext_openssl_alloc_buf_slot] at hcontra hfresh
    rw [hcontra] at hfresh
    simp [shimStoreBuf] at hfresh

/-- Witness for `shim_alloc_slot_fresh`: on the zero-initialised table both
scans grant slot 1, and after storing there the next grant is slot 2. -/
theorem shim_alloc_slot_fresh_witness :
    (x07_ext_openssl_alloc_buf_slot ShimBufTable.empty = 1 ∧ (1 : Nat) ≠ 0) ∧
    (1 ≤ 1 ∧ 1 < 4096 ∧ ShimBufTable.empty.bufs 1 = none) ∧
    (x07_ext_openssl_alloc_buf_slot (shimStoreBuf ShimBufTable.empty 1 [7]) = 2 →
      (2 : Nat) ≠ 0 → (2 : Nat) ≠ 1) :=
  ⟨⟨by decide, by decide⟩,
   (shim_alloc_slot_fresh ShimBufTable.empty 1 2 [7]).1 (by decide) (by decide),
   fun he' hne' =>
     (shim_alloc_slot_fresh ShimBufTable.empty 1 2 [7]).2.2.2.2
       (by decide) (by decide) he' hne'⟩

/-! ## C9: `x07_ext_openssl_rand_bytes_alloc` result documents -/

/-- C9: when a slot is free, a request for more than 1 MiB stores (and
returns success 0 with a non-zero handle for) exactly the 9-byte error
document with tag byte 0 and little-endian error code 3, without invoking
the RNG; a request for at most 1 MiB under a succeeding RNG stores the
document `1 :: random bytes` of length `1 + len`. -/
theorem rand_bytes_alloc_doc (st : ShimBufTable) (len : Nat)
    (rng : Option (List Nat)) (hfree : x07_ext_openssl_alloc_buf_slot st ≠ 0) :
    (1024 * 1024 < len →
      (x07_ext_openssl_rand_bytes_alloc st len rng).1 = 0 ∧
      (x07_ext_openssl_rand_bytes_alloc st len rng).2.1 ≠ 0 ∧
      (x07_ext_openssl_rand_bytes_alloc st len rng).2.2.bufs
          (x07_ext_openssl_rand_bytes_alloc st len rng).2.1 =
        some (x07_ext_make_err_doc 3) ∧
      x07_ext_make_err_doc 3 = [0, 3, 0, 0, 0, 0, 0, 0, 0] ∧
      (x07_ext_make_err_doc 3).length = 9) ∧
    (∀ bs, len ≤ 1024 * 1024 → rng = some bs → bs.length = len →
      (x07_ext_openssl_rand_bytes_alloc st len rng).1 = 0 ∧
      (x07_ext_openssl_rand_bytes_alloc st len rng).2.1 ≠ 0 ∧
      (x07_ext_openssl_rand_bytes_alloc st len rng).2.2.bufs
          (x07_ext_openssl_rand_bytes_alloc st len rng).2.1 = some (1 :: bs) ∧
      (1 :: bs).length = 1 + len) := by
  refine ⟨fun hlen => ?_, fun bs hlen hrng hbs => ?_⟩
  · simp only [x07_ext_openssl_rand_bytes_alloc, if_pos hlen, if_neg hfree,
      shimStoreBuf]
    refine ⟨by trivial, hfree, by simp, by decide, by decide⟩
  · have hlen' : ¬ 1024 * 1024 < len := by omega
    subst hrng
    by_cases h0 : len = 0
    · have hnil : bs = [] := List.length_eq_zero.mp (by omega)
      subst hnil
      simp only [x07_ext_openssl_rand_bytes_alloc, if_neg hlen', h0, if_pos rfl,
        if_neg hfree, shimStoreBuf]
      exact ⟨by trivial, hfree, by simp, by simp [h0]⟩
    · simp only [x07_ext_openssl_rand_bytes_alloc, if_neg hlen', if_neg h0,
        if_neg hfree, shimStoreBuf]
      exact ⟨by trivial, hfree, by simp, by simp [hbs, Nat.add_comm]⟩

/-- Witness for `rand_bytes_alloc_doc`: on the zero-initialised table, a
2 MB request stores the code-3 error document, and a 3-byte request with
RNG output `[7, 8, 9]` stores `[1, 7, 8, 9]`. -/
theorem rand_bytes_alloc_doc_witness :
    ((1024 * 1024 < 2000000 →
      (x07_ext_openssl_rand_bytes_alloc ShimBufTable.empty 2000000 none).1 = 0 ∧
      (x07_ext_openssl_rand_bytes_alloc ShimBufTable.empty 2000000 none).2.1 ≠ 0 ∧
      (x07_ext_openssl_rand_bytes_alloc ShimBufTable.empty 2000000 none).2.2.bufs
          (x07_ext_openssl_rand_bytes_alloc ShimBufTable.empty 2000000 none).2.1 =
        some (x07_ext_make_err_doc 3) ∧
      x07_ext_make_err_doc 3 = [0, 3, 0, 0, 0, 0, 0, 0, 0] ∧
      (x07_ext_make_err_doc 3).length = 9)) ∧
    ((x07_ext_openssl_rand_bytes_alloc ShimBufTable.empty 3 (some [7, 8, 9])).1 = 0 ∧
      (x07_ext_openssl_rand_bytes_alloc ShimBufTable.empty 3 (some [7, 8, 9])).2.1 ≠ 0 ∧
      (x07_ext_openssl_rand_bytes_alloc ShimBufTable.empty 3 (some [7, 8, 9])).2.2.bufs
          (x07_ext_openssl_rand_bytes_alloc ShimBufTable.empty 3 (some [7, 8, 9])).2.1 =
        some (1 :: [7, 8, 9]) ∧
      (1 :: [7, 8, 9]).length = 1 + 3) :=
  ⟨(rand_bytes_alloc_doc ShimBufTable.empty 2000000 none (by decide)).1,
   (rand_bytes_alloc_doc ShimBufTable.empty 3 (some [7, 8, 9]) (by decide)).2
     [7, 8, 9] (by norm_num) rfl (by decide)⟩

/-! ## C8: base64url (no padding) correctness -/

/-- Every alphabet character produced by `x07_ext_b64url_char` is URL-safe
and is not `'='`. -/
theorem b64url_char_urlsafe (v : Nat) :
    isB64UrlChar (x07_ext_b64url_char v) = true ∧ x07_ext_b64url_char v ≠ '=' := by
  have tbl : ∀ i < 64, isB64UrlChar (b64url_tbl.getD i 'A') = true ∧
      b64url_tbl.getD i 'A' ≠ '=' := by decide
  exact tbl (v % 64) (Nat.mod_lt v (by norm_num))

/-- Decoding an alphabet character recovers its 6-bit value. -/
theorem b64url_dec_char (v : Nat) : b64url_dec (x07_ext_b64url_char v) = v % 64 := by
  have tbl : ∀ i < 64, b64url_dec (b64url_tbl.getD i 'A') = i := by decide
  exact tbl (v % 64) (Nat.mod_lt v (by norm_num))

/-- The reported output length of the encoder: `4 * (n / 3)` plus 0, 2 or 3
according as `n % 3` is 0, 1 or 2. -/
theorem b64url_nopad_length (data : List Nat) :
    (x07_ext_b64url_nopad data).length = 4 * (data.length / 3) +
      (if data.length % 3 = 0 then 0 else if data.length % 3 = 1 then 2 else 3) := by
  induction data using x07_ext_b64url_nopad.induct with
  | case1 b0 b1 b2 rest ih =>
    simp only [x07_ext_b64url_nopad, List.length_cons]
    rw [ih]
    have h3 : (rest.length + 1 + 1 + 1) % 3 = rest.length % 3 := by omega
    have h4 : (rest.length + 1 + 1 + 1) / 3 = rest.length / 3 + 1 := by omega
    simp only [h3, h4]
    omega
  | case2 b0 b1 => simp [x07_ext_b64url_nopad]
  | case3 b0 => simp [x07_ext_b64url_nopad]
  | case4 => simp [x07_ext_b64url_nopad]

/-- Every character of the encoder's output is a URL-safe alphabet
character, and `'='` never occurs. -/
theorem b64url_nopad_alphabet (data : List Nat) :
    ∀ c ∈ x07_ext_b64url_nopad data, isB64UrlChar c = true ∧ c ≠ '=' := by
  induction data using x07_ext_b64url_nopad.induct with
  | case1 b0 b1 b2 rest ih =>
    intro c hc
    simp only [x07_ext_b64url_nopad, List.mem_cons] at hc
    rcases hc with rfl | rfl | rfl | rfl | hc
    · exact b64url_char_urlsafe _
    · exact b64url_char_urlsafe _
    · exact b64url_char_urlsafe _
    · exact b64url_char_urlsafe _
    · exact ih c hc
  | case2 b0 b1 =>
    intro c hc
    simp only [x07_ext_b64url_nopad, List.mem_cons, List.not_mem_nil, or_false] at hc
    rcases hc with rfl | rfl | rfl <;> exact b64url_char_urlsafe _
  | case3 b0 =>
    intro c hc
    simp only [x07_ext_b64url_nopad, List.mem_cons, List.not_mem_nil, or_false] at hc
    rcases hc with rfl | rfl <;> exact b64url_char_urlsafe _
  | case4 =>
    intro c hc
    simp [x07_ext_b64url_nopad] at hc

/-- Base64url-decoding the encoder's output recovers the input bytes. -/
theorem b64url_nopad_roundtrip (data : List Nat) (hd : ∀ b ∈ data, b < 256) :
    b64url_decode (x07_ext_b64url_nopad data) = data := by
  induction data using x07_ext_b64url_nopad.induct with
  | case1 b0 b1 b2 rest ih =>
    have hb0 : b0 < 256 := hd b0 (by simp)
    have hb1 : b1 < 256 := hd b1 (by simp)
    have hb2 : b2 < 256 := hd b2 (by simp)
    have ih' := ih (fun b hb => hd b (by simp [hb]))
    simp only [x07_ext_b64url_nopad, b64url_decode, b64url_dec_char]
    rw [ih']
    simp only [List.cons.injEq, and_true]
    norm_num
    omega
  | case2 b0 b1 =>
    have hb0 : b0 < 256 := hd b0 (by simp)
    have hb1 : b1 < 256 := hd b1 (by simp)
    simp only [x07_ext_b64url_nopad, b64url_decode, b64url_dec_char]
    simp only [List.cons.injEq, and_true]
    norm_num
    omega
  | case3 b0 =>
    have hb0 : b0 < 256 := hd b0 (by simp)
    simp only [x07_ext_b64url_nopad, b64url_decode, b64url_dec_char]
    simp only [List.cons.injEq, and_true]
    norm_num
    omega
  | case4 => rfl

/-- C8: for every byte string of length `n`, `x07_ext_b64url_nopad` returns
a string of reported length `4 * (n / 3)` plus 0, 2 or 3 according as
`n % 3` is 0, 1 or 2, containing only URL-safe alphabet characters
`A-Z a-z 0-9 - _` and no `'='` padding, and base64url-decoding it yields the
original input bytes. -/
theorem b64url_nopad_correct (data : List Nat) (hd : ∀ b ∈ data, b < 256) :
    (x07_ext_b64url_nopad data).length = 4 * (data.length / 3) +
      (if data.length % 3 = 0 then 0 else if data.length % 3 = 1 then 2 else 3) ∧
    (∀ c ∈ x07_ext_b64url_nopad data, isB64UrlChar c = true ∧ c ≠ '=') ∧
    b64url_decode (x07_ext_b64url_nopad data) = data :=
  ⟨b64url_nopad_length data, b64url_nopad_alphabet data,
   b64url_nopad_roundtrip data hd⟩

/-- Witness for `b64url_nopad_correct` at the 4-byte input
`[102, 111, 111, 42]` (`"foo*"`). -/
theorem b64url_nopad_correct_witness :
    (∀ b ∈ ([102, 111, 111, 42] : List Nat), b < 256) ∧
    ((x07_ext_b64url_nopad [102, 111, 111, 42]).length = 4 * (4 / 3) +
      (if (4 : Nat) % 3 = 0 then 0 else if (4 : Nat) % 3 = 1 then 2 else 3) ∧
    (∀ c ∈ x07_ext_b64url_nopad [102, 111, 111, 42],
      isB64UrlChar c = true ∧ c ≠ '=') ∧
    b64url_decode (x07_ext_b64url_nopad [102, 111, 111, 42]) =
      [102, 111, 111, 42]) :=
  ⟨by decide, b64url_nopad_correct [102, 111, 111, 42] (by decide)⟩

end X07
